import Mathlib

/-!
Verification development for the medical-imaging study-tracking application.

The relational schema is embedded from src/drizzle/schema.ts (mirrored by the
SQL migrations).  The HTTP client wrapper is embedded from src/api.ts and the
upload-page file filter from src/client/src/pages/NewStudy.tsx.

The server request handlers (FastAPI server/routers.py) are not part of the
source tree; only their type declarations (src/server/routers.d.ts) and their
callers are.  Each handler is therefore modelled from the specification, as
marked in its doc comment, with the input/output types taken from
src/server/routers.d.ts.
-/

/-- Status column of the studies table: enum("draft","analyzing","completed","error"),
from src/drizzle/schema.ts. -/
inductive StudyStatus where
  | draft
  | analyzing
  | completed
  | error
deriving DecidableEq, Repr

/-- studyType column: enum("retinal_scan","optic_nerve","macular_analysis"),
from src/drizzle/schema.ts. -/
inductive StudyType where
  | retinal_scan
  | optic_nerve
  | macular_analysis
deriving DecidableEq, Repr

/-- Role column of chatMessages: enum("user","assistant"), from src/drizzle/schema.ts. -/
inductive ChatRole where
  | user
  | assistant
deriving DecidableEq, Repr

/-- A row of the studies table (src/drizzle/schema.ts).  Timestamps are modelled
as natural numbers. -/
structure Study where
  id : Nat
  userId : Nat
  title : String
  studyType : StudyType
  status : StudyStatus
  analysisResult : Option String
  createdAt : Nat
  updatedAt : Nat
deriving DecidableEq, Repr

/-- A row of the studyImages table (src/drizzle/schema.ts). -/
structure StudyImage where
  id : Nat
  studyId : Nat
  fileKey : String
  url : String
  filename : String
  mimeType : String
  fileSize : Nat
  createdAt : Nat
deriving DecidableEq, Repr

/-- A row of the chatMessages table (src/drizzle/schema.ts). -/
structure ChatMessage where
  id : Nat
  studyId : Nat
  role : ChatRole
  content : String
  createdAt : Nat
deriving DecidableEq, Repr

/-- Error kinds of the error-handling design (spec section 7). -/
inductive ServerError where
  | invalidArgument
  | invalidState
  | preconditionFailed
  | conflict
  | notFound
  | externalCollaboratorFailure
  | unauthorized
deriving DecidableEq, Repr

/-- Input of AppRouter.studies.update, copied from src/server/routers.d.ts lines
80-83: only id, optional title and optional analysisResult.  The request carries
no updatedAt token. -/
structure UpdateInput where
  id : Nat
  title : Option String
  analysisResult : Option String
deriving DecidableEq, Repr

/-- Outcome of sendChatMessage: either the assistant replied, or the collaborator
failed after the user message was persisted (the partial-failure indicator of
spec section 4.2). -/
inductive ChatOutcome where
  | replied (content : String)
  | userSavedAssistantFailed
deriving DecidableEq, Repr

/-- Database state: the three study-related tables of src/drizzle/schema.ts,
their auto-increment counters, and the server clock that sources the
server-assigned timestamps (defaultNow / onUpdateNow in the schema). -/
structure DB where
  studies : List Study
  studyImages : List StudyImage
  chatMessages : List ChatMessage
  nextStudyId : Nat
  nextImageId : Nat
  nextMessageId : Nat
  clock : Nat
deriving DecidableEq, Repr

/-- The empty database. -/
def DB.init : DB :=
  { studies := [], studyImages := [], chatMessages := [],
    nextStudyId := 1, nextImageId := 1, nextMessageId := 1, clock := 0 }

/-- Look up a study row by primary key. -/
def findStudy (db : DB) (sid : Nat) : Option Study :=
  db.studies.find? (fun s => s.id == sid)

/-- All image rows belonging to a study. -/
def imagesOf (db : DB) (sid : Nat) : List StudyImage :=
  db.studyImages.filter (fun i => i.studyId == sid)

/-- Apply a row update to every study row with the given primary key. -/
def updateStudyWhere (db : DB) (sid : Nat) (f : Study → Study) : DB :=
  { db with studies := db.studies.map (fun s => if s.id = sid then f s else s) }

/-- Modelled from the spec: the GET /studies/id/messages handler of
server/routers.py is missing from src/.  Spec section 4.2: listMessages returns
all messages of the study in ascending creation order; under append-only
insertion with a monotonic clock the storage order is that order, which the
ordering theorem below establishes. -/
def getChatMessages (db : DB) (sid : Nat) : List ChatMessage :=
  db.chatMessages.filter (fun m => m.studyId == sid)

/-- Modelled from the spec: the POST /studies handler of server/routers.py is
missing from src/.  Spec section 4.1: create(userId, title, studyType) makes a
new Study in draft with no images and no analysis yet. -/
def createStudy (db : DB) (userId : Nat) (title : String) (ty : StudyType) :
    DB × Except ServerError Nat :=
  let s : Study :=
    { id := db.nextStudyId, userId := userId, title := title, studyType := ty,
      status := StudyStatus.draft, analysisResult := none,
      createdAt := db.clock, updatedAt := db.clock }
  ({ db with studies := db.studies ++ [s], nextStudyId := db.nextStudyId + 1 },
   Except.ok db.nextStudyId)

/-- Modelled from the spec: the POST /studies/id/images handler of
server/routers.py is missing from src/.  Spec section 4.1: attachImage requires
the Study to exist and be in draft, stores the image via the blob-store
collaborator, records a StudyImage row, and does not transition status; on a
non-draft study it fails with InvalidState persisting nothing (section 8). -/
def uploadImage (db : DB) (sid : Nat) (imageData filename mimeType : String) :
    DB × Except ServerError (Nat × String) :=
  match findStudy db sid with
  | none => (db, Except.error ServerError.notFound)
  | some s =>
      if s.status = StudyStatus.draft then
        let fileKey := String.append filename (String.append ("-") (toString db.nextImageId))
        let url := String.append ("https://storage/") fileKey
        let img : StudyImage :=
          { id := db.nextImageId, studyId := sid, fileKey := fileKey, url := url,
            filename := filename, mimeType := mimeType,
            fileSize := imageData.length, createdAt := db.clock }
        ({ db with studyImages := db.studyImages ++ [img],
                   nextImageId := db.nextImageId + 1 },
         Except.ok (db.nextImageId, url))
      else (db, Except.error ServerError.invalidState)

/-- Row transform applied when analysis starts: status becomes analyzing. -/
def markAnalyzing (clock : Nat) (t : Study) : Study :=
  { t with status := StudyStatus.analyzing, updatedAt := clock }

/-- Row transform applied when the analysis collaborator succeeds: the result
is recorded and status becomes completed. -/
def markCompleted (r : String) (clock : Nat) (t : Study) : Study :=
  { t with status := StudyStatus.completed, analysisResult := some r, updatedAt := clock }

/-- Row transform applied when the analysis collaborator fails: status becomes
error and no analysisResult is recorded. -/
def markError (clock : Nat) (t : Study) : Study :=
  { t with status := StudyStatus.error, updatedAt := clock }

/-- Row transform of the update endpoint: overwrite title and analysisResult
when the request supplies them; updatedAt is refreshed by the schema's
onUpdateNow. -/
def applyUpdate (inp : UpdateInput) (clock : Nat) (s : Study) : Study :=
  { s with title := inp.title.getD s.title,
           analysisResult :=
             match inp.analysisResult with
             | some a => some a
             | none => s.analysisResult,
           updatedAt := clock }

/-- Modelled from the spec: the first phase of the POST /studies/id/analyze
handler of server/routers.py, missing from src/.  Spec section 4.1:
startAnalysis requires the Study in draft (or in error, the mandated re-entry
path) with at least one StudyImage, fails with PreconditionFailed when it has
zero images, and transitions the Study to analyzing before invoking the
external analysis collaborator. -/
def beginAnalysis (db : DB) (sid : Nat) : DB × Except ServerError Unit :=
  match findStudy db sid with
  | none => (db, Except.error ServerError.notFound)
  | some s =>
      if s.status = StudyStatus.draft ∨ s.status = StudyStatus.error then
        if imagesOf db sid = [] then
          (db, Except.error ServerError.preconditionFailed)
        else
          (updateStudyWhere db sid (markAnalyzing db.clock), Except.ok ())
      else (db, Except.error ServerError.invalidState)

/-- Modelled from the spec: the second phase of the analyze handler, missing
from src/.  Spec section 4.1: on collaborator success the Study gets its
analysisResult and moves to completed; on collaborator failure (error, timeout
or malformed output) it moves to error and no analysisResult is recorded.  The
collaborator outcome is passed as a parameter: some result on success, none on
failure. -/
def finishAnalysis (db : DB) (sid : Nat) (collab : Option String) : DB :=
  match findStudy db sid with
  | none => db
  | some s =>
      if s.status = StudyStatus.analyzing then
        match collab with
        | some r => updateStudyWhere db sid (markCompleted r db.clock)
        | none => updateStudyWhere db sid (markError db.clock)
      else db

/-- Modelled from the spec: the full POST /studies/id/analyze handler, missing
from src/: the two phases run synchronously within one request (spec section
4.1), and a collaborator failure is surfaced as ExternalCollaboratorFailure
(spec section 7) after being absorbed into the error status. -/
def startAnalysis (db : DB) (sid : Nat) (collab : Option String) :
    DB × Except ServerError String :=
  match beginAnalysis db sid with
  | (_, Except.error e) => (db, Except.error e)
  | (db1, Except.ok _) =>
      let db2 := finishAnalysis db1 sid collab
      match collab with
      | some r => (db2, Except.ok r)
      | none => (db2, Except.error ServerError.externalCollaboratorFailure)

/-- Modelled from the spec: the PATCH /studies/id handler of server/routers.py
is missing from src/.  Its input type is UpdateInput from
src/server/routers.d.ts (no updatedAt token), and spec section 9 records that
the source applies the update unconditionally (implicit last-write-wins, no
optimistic-concurrency check observed in the source); updatedAt is refreshed by
the schema's onUpdateNow.  Status, userId, studyType and createdAt are not
touched (spec section 4.1: field-level mutation of title and analysisResult
only). -/
def updateStudy (db : DB) (inp : UpdateInput) : DB × Except ServerError Bool :=
  match findStudy db inp.id with
  | none => (db, Except.error ServerError.notFound)
  | some _ =>
      (updateStudyWhere db inp.id (applyUpdate inp db.clock), Except.ok true)

/-- Modelled from the spec: the DELETE /studies/id handler of server/routers.py
is missing from src/.  Spec section 4.1: deleteStudy cascades deletion of the
StudyImages and ChatMessages of the study. -/
def deleteStudyOp (db : DB) (sid : Nat) : DB :=
  { db with studies := db.studies.filter (fun s => s.id != sid),
            studyImages := db.studyImages.filter (fun i => i.studyId != sid),
            chatMessages := db.chatMessages.filter (fun m => m.studyId != sid) }

/-- JavaScript String.prototype.startsWith, modelled as a prefix test on the
character sequence of the string. -/
def strStartsWith (s pre : String) : Bool :=
  pre.data.isPrefixOf s.data

/-- JavaScript String.prototype.trim, modelled on the character sequence:
strip whitespace from both ends. -/
def strTrim (s : String) : List Char :=
  ((s.data.dropWhile Char.isWhitespace).reverse.dropWhile Char.isWhitespace).reverse

/-- Modelled from the spec: the POST /studies/id/messages handler of
server/routers.py is missing from src/.  Spec section 4.2: the content must be
non-empty after trimming (else InvalidArgument); the user message is appended
with a server-assigned timestamp and sequence number; then the conversational
collaborator is called (outcome passed as a parameter).  On collaborator
success the assistant message is appended; on failure the user message stays
persisted, no assistant message is appended, and the caller receives the
partial-failure indicator. -/
def sendChatMessage (db : DB) (sid : Nat) (message : String) (collab : Option String) :
    DB × Except ServerError ChatOutcome :=
  if strTrim message = [] then (db, Except.error ServerError.invalidArgument)
  else
    match findStudy db sid with
    | none => (db, Except.error ServerError.notFound)
    | some _ =>
        let um : ChatMessage :=
          { id := db.nextMessageId, studyId := sid, role := ChatRole.user,
            content := message, createdAt := db.clock }
        let db1 : DB :=
          { db with chatMessages := db.chatMessages ++ [um],
                    nextMessageId := db.nextMessageId + 1 }
        match collab with
        | some reply =>
            let am : ChatMessage :=
              { id := db1.nextMessageId, studyId := sid, role := ChatRole.assistant,
                content := reply, createdAt := db1.clock }
            ({ db1 with chatMessages := db1.chatMessages ++ [am],
                        nextMessageId := db1.nextMessageId + 1 },
             Except.ok (ChatOutcome.replied reply))
        | none => (db1, Except.ok ChatOutcome.userSavedAssistantFailed)

/-- One lifecycle or chat operation against the database, with collaborator
outcomes supplied as parameters and tick modelling the advance of the server
clock between requests. -/
inductive Op where
  | create (userId : Nat) (title : String) (ty : StudyType)
  | uploadImage (sid : Nat) (imageData filename mimeType : String)
  | beginAnalysis (sid : Nat)
  | finishAnalysis (sid : Nat) (collab : Option String)
  | update (inp : UpdateInput)
  | deleteStudy (sid : Nat)
  | sendChat (sid : Nat) (message : String) (collab : Option String)
  | tick (d : Nat)
deriving Repr

/-- State reached by running one operation (result values discarded). -/
def applyOp (db : DB) : Op → DB
  | Op.create u t ty => (createStudy db u t ty).1
  | Op.uploadImage sid d f m => (uploadImage db sid d f m).1
  | Op.beginAnalysis sid => (beginAnalysis db sid).1
  | Op.finishAnalysis sid c => finishAnalysis db sid c
  | Op.update inp => (updateStudy db inp).1
  | Op.deleteStudy sid => deleteStudyOp db sid
  | Op.sendChat sid msg c => (sendChatMessage db sid msg c).1
  | Op.tick d => { db with clock := db.clock + d }

/-- State reached by running a sequence of operations from a start state. -/
def applyOps (db : DB) (ops : List Op) : DB :=
  ops.foldl applyOp db

/-- The parts of an HTTP response that apiRequest (src/api.ts lines 16-42)
inspects: ok, status, statusText, the content-length header, whether the body
parses as JSON, and the detail field of the parsed error body when present. -/
structure HttpResponse where
  ok : Bool
  status : Nat
  statusText : String
  contentLength : Option String
  bodyParses : Bool
  body : String
  errorDetail : Option String
deriving DecidableEq, Repr

/-- Result value of apiRequest: the empty object returned without reading the
body (src/api.ts line 38), or the parsed JSON body. -/
inductive ApiValue where
  | empty
  | parsed (body : String)
deriving DecidableEq, Repr

/-- The message of the Error thrown on a non-ok response, from src/api.ts lines
31-34: the detail of the parsed error body, falling back to statusText when the
body does not parse, and to the HTTP-error string when the detail is absent or
empty (JavaScript falsiness of the empty string under the or-else operator). -/
def errorMessage (r : HttpResponse) : String :=
  let detail : Option String := if r.bodyParses then r.errorDetail else some r.statusText
  match detail with
  | some d =>
      if d = ("") then String.append ("HTTP error! status: ") (toString r.status) else d
  | none => String.append ("HTTP error! status: ") (toString r.status)

/-- apiRequest from src/api.ts lines 16-42, as a function of the received
response: throw on a non-ok response; return the empty object when the status
is 204 or the content-length header is the string 0; otherwise parse the body
(a parse rejection propagates as a thrown error). -/
def apiRequest (r : HttpResponse) : Except String ApiValue :=
  if ¬ r.ok then Except.error (errorMessage r)
  else if r.status = 204 ∨ r.contentLength = some ("0") then Except.ok ApiValue.empty
  else if r.bodyParses then Except.ok (ApiValue.parsed r.body)
  else Except.error ("body parse error")

/-- The fields of a browser File object that handleFileSelect reads
(src/client/src/pages/NewStudy.tsx). -/
structure WebFile where
  name : String
  mime : String
  size : Nat
deriving DecidableEq, Repr

/-- The component state handleFileSelect touches: the selected file and the
preview URL (src/client/src/pages/NewStudy.tsx lines 12-13). -/
structure NewStudyState where
  selectedFile : Option WebFile
  previewUrl : Option String
deriving DecidableEq, Repr

/-- The opaque browser collaborator URL.createObjectURL, modelled as a blob URL
derived from the file name. -/
def createObjectURL (f : WebFile) : String :=
  String.append ("blob:") f.name

/-- handleFileSelect from src/client/src/pages/NewStudy.tsx lines 30-44: reject
a file whose MIME type does not start with image/ or whose size exceeds
16*1024*1024 bytes, leaving the state unchanged; otherwise record it as the
selected file and set the preview URL.  The returned flag reports whether a
network request was issued; the source body contains no API call, so it is
false on every path. -/
def handleFileSelect (st : NewStudyState) (file : WebFile) : NewStudyState × Bool :=
  if ¬ strStartsWith file.mime ("image/") then (st, false)
  else if file.size > 16 * 1024 * 1024 then (st, false)
  else ({ selectedFile := some file, previewUrl := some (createObjectURL file) }, false)

/-- A database with a single completed study whose stored updatedAt is 100,
used to exercise two report updates issued from the same read. -/
def conflictDemoDB : DB :=
  { studies := [{ id := 1, userId := 7, title := ("Old"), studyType := StudyType.retinal_scan,
                  status := StudyStatus.completed, analysisResult := some ("R"),
                  createdAt := 50, updatedAt := 100 }],
    studyImages := [], chatMessages := [],
    nextStudyId := 2, nextImageId := 1, nextMessageId := 1, clock := 200 }

/-- A study row found by primary key has that key. -/
theorem findStudy_id {db : DB} {sid : Nat} {s : Study} (h : findStudy db sid = some s) :
    s.id = sid := by
  have hp := List.find?_some h
  simpa using hp

/-- find? over a map by a key-preserving function commutes with the map. -/
theorem find_id_map {α : Type} (l : List α) (key : α → Nat) (g : α → α)
    (hg : ∀ t, key (g t) = key t) (tid : Nat) :
    (l.map g).find? (fun t => key t == tid) = (l.find? (fun t => key t == tid)).map g := by
  induction l with
  | nil => rfl
  | cons a l ih =>
    by_cases h : (key a == tid) = true
    · rw [List.map_cons,
          @List.find?_cons_of_pos _ (fun t => key t == tid) (g a) (l.map g) (by simpa [hg] using h),
          @List.find?_cons_of_pos _ (fun t => key t == tid) a l h]
      rfl
    · rw [List.map_cons,
          @List.find?_cons_of_neg _ (fun t => key t == tid) (g a) (l.map g) (by simpa [hg] using h),
          @List.find?_cons_of_neg _ (fun t => key t == tid) a l h, ih]

/-- Looking a study up after a keyed row update sees the updated row. -/
theorem findStudy_updateStudyWhere (db : DB) (sid : Nat) (f : Study → Study)
    (hf : ∀ t, (f t).id = t.id) (tid : Nat) :
    findStudy (updateStudyWhere db sid f) tid
      = (findStudy db tid).map (fun t => if t.id = sid then f t else t) := by
  show (db.studies.map _).find? _ = _
  rw [find_id_map db.studies Study.id _
        (by intro t; by_cases h : t.id = sid <;> simp [h, hf]) tid]
  rfl

/-- After a keyed row update, the row observed at any key is the old row, or
the old row transformed when the keys agree. -/
theorem findStudy_updateStudyWhere_cases (db : DB) (sid tid : Nat) (f : Study → Study)
    (hf : ∀ t, (f t).id = t.id) (s s' : Study)
    (h1 : findStudy db tid = some s)
    (h2 : findStudy (updateStudyWhere db sid f) tid = some s') :
    s' = s ∨ (tid = sid ∧ s' = f s) := by
  rw [findStudy_updateStudyWhere db sid f hf tid, h1] at h2
  simp only [Option.map_some', Option.some.injEq] at h2
  by_cases hid : s.id = sid
  · right
    refine ⟨by rw [← findStudy_id h1, hid], ?_⟩
    rw [← h2]
    simp [hid]
  · left
    rw [← h2]
    simp [hid]

/-- find? is unchanged by filtering with a predicate implied by the search. -/
theorem find_filter_of_imp {α : Type} (l : List α) (p q : α → Bool)
    (h : ∀ x, p x = true → q x = true) :
    (l.filter q).find? p = l.find? p := by
  induction l with
  | nil => rfl
  | cons a l ih =>
    by_cases hq : q a = true
    · rw [List.filter_cons_of_pos hq]
      by_cases hp : p a = true
      · rw [List.find?_cons_of_pos _ hp, List.find?_cons_of_pos _ hp]
      · rw [List.find?_cons_of_neg _ hp, List.find?_cons_of_neg _ hp, ih]
    · rw [List.filter_cons_of_neg (by simpa using hq)]
      have hp : ¬ p a = true := fun hpa => hq (h a hpa)
      rw [List.find?_cons_of_neg _ hp, ih]

/-- find? returns nothing after filtering away everything the search accepts. -/
theorem find_filter_none {α : Type} (l : List α) (p q : α → Bool)
    (h : ∀ x, p x = true → q x = false) :
    (l.filter q).find? p = none := by
  induction l with
  | nil => rfl
  | cons a l ih =>
    by_cases hq : q a = true
    · have hp : ¬ p a = true := fun hpa => by simp [h a hpa] at hq
      rw [List.filter_cons_of_pos hq, List.find?_cons_of_neg _ hp, ih]
    · rw [List.filter_cons_of_neg (by simpa using hq), ih]

/-- The allowed status edges of the study lifecycle state machine. -/
def allowedEdge : StudyStatus → StudyStatus → Bool
  | StudyStatus.draft, StudyStatus.analyzing => true
  | StudyStatus.analyzing, StudyStatus.completed => true
  | StudyStatus.analyzing, StudyStatus.error => true
  | StudyStatus.error, StudyStatus.analyzing => true
  | _, _ => false

/-- uploadImage never modifies the studies table. -/
theorem uploadImage_studies (db : DB) (sid : Nat) (d f m : String) :
    ((uploadImage db sid d f m).1).studies = db.studies := by
  unfold uploadImage
  split
  · rfl
  · split <;> rfl

/-- sendChatMessage never modifies the studies table. -/
theorem sendChatMessage_studies (db : DB) (sid : Nat) (msg : String) (c : Option String) :
    ((sendChatMessage db sid msg c).1).studies = db.studies := by
  unfold sendChatMessage
  split
  · rfl
  · split
    · rfl
    · split <;> rfl

/-- C9: a file whose MIME type does not start with image/ or whose size exceeds
16*1024*1024 bytes is rejected by handleFileSelect before any network request,
with the selected-file and preview state unchanged; otherwise the file becomes
the selected file (and still no request is issued). -/
theorem handleFileSelect_validates (st : NewStudyState) (f : WebFile) :
    (¬ strStartsWith f.mime ("image/") = true ∨ f.size > 16 * 1024 * 1024 →
        handleFileSelect st f = (st, false)) ∧
    (strStartsWith f.mime ("image/") = true → f.size ≤ 16 * 1024 * 1024 →
        (handleFileSelect st f).1.selectedFile = some f ∧ (handleFileSelect st f).2 = false) := by
  constructor
  · intro h
    unfold handleFileSelect
    rcases h with h | h
    · simp [h]
    · by_cases hm : strStartsWith f.mime ("image/") = true <;> simp [hm, h]
  · intro hm hs
    unfold handleFileSelect
    simp [hm, Nat.not_lt.mpr hs]

/-- Witness for C9: a 5-byte text file is rejected with the state untouched,
and a small PNG becomes the selected file. -/
theorem handleFileSelect_validates_witness :
    handleFileSelect { selectedFile := none, previewUrl := none }
        { name := ("a.txt"), mime := ("text/plain"), size := 5 }
      = ({ selectedFile := none, previewUrl := none }, false) ∧
    (handleFileSelect { selectedFile := none, previewUrl := none }
        { name := ("x.png"), mime := ("image/png"), size := 1000 }).1.selectedFile
      = some { name := ("x.png"), mime := ("image/png"), size := 1000 } :=
  ⟨(handleFileSelect_validates _ _).1 (Or.inl (by decide)),
   ((handleFileSelect_validates _ _).2 (by decide) (by decide)).1⟩

/-- C10: apiRequest throws an Error on every non-ok response, and on an ok
response it returns the empty object without parsing the body exactly when the
status is 204 or the content-length header is the string 0. -/
theorem apiRequest_error_and_empty (r : HttpResponse) :
    (r.ok = false → ∃ msg, apiRequest r = Except.error msg) ∧
    (r.ok = true →
      (apiRequest r = Except.ok ApiValue.empty ↔
        r.status = 204 ∨ r.contentLength = some ("0"))) := by
  constructor
  · intro h
    refine ⟨errorMessage r, ?_⟩
    unfold apiRequest
    simp [h]
  · intro h
    unfold apiRequest
    by_cases hc : r.status = 204 ∨ r.contentLength = some ("0")
    · simp [h, hc]
    · simp only [h, hc, if_false, Bool.not_true, if_neg]
      by_cases hb : r.bodyParses = true <;> simp [hb, hc]

/-- Witness for C10: a 500 response yields a thrown error, and an ok 204
response yields the empty object. -/
theorem apiRequest_error_and_empty_witness :
    (∃ msg, apiRequest
        { ok := false, status := 500, statusText := ("ISE"), contentLength := none,
          bodyParses := false, body := (""), errorDetail := none } = Except.error msg) ∧
    apiRequest
        { ok := true, status := 204, statusText := (""), contentLength := none,
          bodyParses := true, body := (""), errorDetail := none }
      = Except.ok ApiValue.empty :=
  ⟨(apiRequest_error_and_empty _).1 rfl,
   ((apiRequest_error_and_empty _).2 rfl).mpr (Or.inl rfl)⟩

/-- C3: the update endpoint carries no updatedAt token (its input type in
src/server/routers.d.ts has only id, title and analysisResult) and the server
applies last-write-wins, so two updateReport calls issued from the same read of
updatedAt = 100 both succeed — no Conflict is raised and the second write wins,
contrary to the specified optimistic-concurrency discipline. -/
theorem updateReport_no_conflict_check :
    (updateStudy conflictDemoDB { id := 1, title := some ("A"), analysisResult := none }).2
        = Except.ok true ∧
    (updateStudy
        (updateStudy conflictDemoDB { id := 1, title := some ("A"), analysisResult := none }).1
        { id := 1, title := some ("B"), analysisResult := none }).2 = Except.ok true ∧
    (findStudy
        (updateStudy
          (updateStudy conflictDemoDB { id := 1, title := some ("A"), analysisResult := none }).1
          { id := 1, title := some ("B"), analysisResult := none }).1 1).map Study.title
      = some ("B") := by
  refine ⟨rfl, rfl, rfl⟩

/-- A draft study row used by the concrete scenarios. -/
def sampleStudy : Study :=
  { id := 1, userId := 7, title := ("T"), studyType := StudyType.retinal_scan,
    status := StudyStatus.draft, analysisResult := none, createdAt := 0, updatedAt := 0 }

/-- A database holding one draft study and no images. -/
def draftNoImageDB : DB :=
  { studies := [sampleStudy], studyImages := [], chatMessages := [],
    nextStudyId := 2, nextImageId := 1, nextMessageId := 1, clock := 1 }

/-- A database holding one draft study with one attached 2-MB JPEG image, the
scenario of spec section 8. -/
def draftWithImageDB : DB :=
  { studies := [sampleStudy],
    studyImages := [{ id := 1, studyId := 1, fileKey := ("k"), url := ("u"),
                      filename := ("f.jpg"), mimeType := ("image/jpeg"),
                      fileSize := 2097152, createdAt := 0 }],
    chatMessages := [],
    nextStudyId := 2, nextImageId := 2, nextMessageId := 1, clock := 5 }

/-- C4: startAnalysis on a draft study with zero StudyImages fails with
PreconditionFailed and leaves the whole database unchanged, in particular the
draft status and every other field of the study. -/
theorem startAnalysis_no_images (db : DB) (sid : Nat) (s : Study) (collab : Option String)
    (h : findStudy db sid = some s) (hd : s.status = StudyStatus.draft)
    (hi : imagesOf db sid = []) :
    startAnalysis db sid collab = (db, Except.error ServerError.preconditionFailed) := by
  unfold startAnalysis beginAnalysis
  rw [h]
  simp [hd, hi]

/-- Witness for C4: on the one-draft-study database with no images, analysis
fails with PreconditionFailed and returns the database unchanged. -/
theorem startAnalysis_no_images_witness :
    startAnalysis draftNoImageDB 1 (some ("R"))
      = (draftNoImageDB, Except.error ServerError.preconditionFailed) :=
  startAnalysis_no_images draftNoImageDB 1 sampleStudy (some ("R")) rfl rfl rfl

/-- C5: attachImage (the uploadImage endpoint) on a study that is not in draft
fails with InvalidState and persists nothing: the database, in particular the
set of StudyImages, is unchanged. -/
theorem uploadImage_non_draft (db : DB) (sid : Nat) (s : Study) (d f m : String)
    (h : findStudy db sid = some s) (hs : s.status ≠ StudyStatus.draft) :
    uploadImage db sid d f m = (db, Except.error ServerError.invalidState) := by
  unfold uploadImage
  rw [h]
  simp [hs]

/-- Witness for C5: uploading to the completed study of conflictDemoDB fails
with InvalidState and changes nothing. -/
theorem uploadImage_non_draft_witness :
    uploadImage conflictDemoDB 1 ("d") ("f.png") ("image/png")
      = (conflictDemoDB, Except.error ServerError.invalidState) :=
  uploadImage_non_draft conflictDemoDB 1
    { id := 1, userId := 7, title := ("Old"), studyType := StudyType.retinal_scan,
      status := StudyStatus.completed, analysisResult := some ("R"),
      createdAt := 50, updatedAt := 100 }
    ("d") ("f.png") ("image/png") rfl (by decide)

/-- C6: updateReport succeeds in any state and mutates only title,
analysisResult and updatedAt of the addressed study: its status, userId,
studyType and createdAt are preserved, every other study row is untouched, and
the StudyImages and ChatMessages tables are unchanged. -/
theorem updateReport_frame (db : DB) (inp : UpdateInput) (s : Study)
    (h : findStudy db inp.id = some s) :
    (updateStudy db inp).2 = Except.ok true ∧
    findStudy (updateStudy db inp).1 inp.id = some (applyUpdate inp db.clock s) ∧
    (applyUpdate inp db.clock s).status = s.status ∧
    (applyUpdate inp db.clock s).userId = s.userId ∧
    (applyUpdate inp db.clock s).studyType = s.studyType ∧
    (applyUpdate inp db.clock s).createdAt = s.createdAt ∧
    (applyUpdate inp db.clock s).title = inp.title.getD s.title ∧
    (applyUpdate inp db.clock s).analysisResult
      = (match inp.analysisResult with
         | some a => some a
         | none => s.analysisResult) ∧
    (updateStudy db inp).1.studyImages = db.studyImages ∧
    (updateStudy db inp).1.chatMessages = db.chatMessages ∧
    (∀ tid t, tid ≠ inp.id → findStudy db tid = some t →
        findStudy (updateStudy db inp).1 tid = some t) := by
  have hid := findStudy_id h
  have heq : (updateStudy db inp).1 = updateStudyWhere db inp.id (applyUpdate inp db.clock) := by
    unfold updateStudy
    rw [h]
  refine ⟨?_, ?_, rfl, rfl, rfl, rfl, rfl, rfl, ?_, ?_, ?_⟩
  · unfold updateStudy
    rw [h]
  · rw [heq,
        findStudy_updateStudyWhere db inp.id (applyUpdate inp db.clock) (fun t => rfl) inp.id, h]
    simp [hid]
  · rw [heq]
    rfl
  · rw [heq]
    rfl
  · intro tid t hne ht
    rw [heq,
        findStudy_updateStudyWhere db inp.id (applyUpdate inp db.clock) (fun t => rfl) tid, ht]
    have : t.id ≠ inp.id := by rw [findStudy_id ht]; exact hne
    simp [this]

/-- Witness for C6: updating the title of the completed study of conflictDemoDB
succeeds and leaves its status completed. -/
theorem updateReport_frame_witness :
    (updateStudy conflictDemoDB { id := 1, title := some ("N"), analysisResult := none }).2
        = Except.ok true ∧
    (applyUpdate { id := 1, title := some ("N"), analysisResult := none } conflictDemoDB.clock
        { id := 1, userId := 7, title := ("Old"), studyType := StudyType.retinal_scan,
          status := StudyStatus.completed, analysisResult := some ("R"),
          createdAt := 50, updatedAt := 100 }).status = StudyStatus.completed :=
  have h := updateReport_frame conflictDemoDB
    { id := 1, title := some ("N"), analysisResult := none }
    { id := 1, userId := 7, title := ("Old"), studyType := StudyType.retinal_scan,
      status := StudyStatus.completed, analysisResult := some ("R"),
      createdAt := 50, updatedAt := 100 } rfl
  ⟨h.1, h.2.2.1⟩

/-- C2: startAnalysis on a draft study with at least one image first moves it
to analyzing; when the collaborator succeeds the study ends completed with the
non-null analysisResult, and when the collaborator fails the study ends in
error with analysisResult unchanged (so still unset when it was unset) and the
caller receives ExternalCollaboratorFailure. -/
theorem startAnalysis_lifecycle (db : DB) (sid : Nat) (s : Study) (collab : Option String)
    (h : findStudy db sid = some s) (hd : s.status = StudyStatus.draft)
    (hi : imagesOf db sid ≠ []) :
    (findStudy (beginAnalysis db sid).1 sid = some (markAnalyzing db.clock s) ∧
      (markAnalyzing db.clock s).status = StudyStatus.analyzing) ∧
    (∀ r, collab = some r →
      (startAnalysis db sid collab).2 = Except.ok r ∧
      ∃ s2, findStudy (startAnalysis db sid collab).1 sid = some s2 ∧
        s2.status = StudyStatus.completed ∧ s2.analysisResult = some r) ∧
    (collab = none →
      (startAnalysis db sid collab).2 = Except.error ServerError.externalCollaboratorFailure ∧
      ∃ s2, findStudy (startAnalysis db sid collab).1 sid = some s2 ∧
        s2.status = StudyStatus.error ∧ s2.analysisResult = s.analysisResult) := by
  have hid := findStudy_id h
  have hbegin : beginAnalysis db sid
      = (updateStudyWhere db sid (markAnalyzing db.clock), Except.ok ()) := by
    unfold beginAnalysis
    rw [h]
    simp [hd, hi]
  have hfind1 : findStudy (updateStudyWhere db sid (markAnalyzing db.clock)) sid
      = some (markAnalyzing db.clock s) := by
    rw [findStudy_updateStudyWhere db sid (markAnalyzing db.clock) (fun t => rfl) sid, h]
    simp [hid]
  refine ⟨⟨by rw [hbegin]; exact hfind1, rfl⟩, ?_, ?_⟩
  · intro r hr
    subst hr
    have hfin : startAnalysis db sid (some r)
        = (updateStudyWhere (updateStudyWhere db sid (markAnalyzing db.clock)) sid
            (markCompleted r db.clock), Except.ok r) := by
      unfold startAnalysis finishAnalysis
      rw [hbegin]
      dsimp only
      rw [hfind1]
      rfl
    refine ⟨by rw [hfin], markCompleted r db.clock (markAnalyzing db.clock s), ?_, rfl, rfl⟩
    rw [hfin,
        findStudy_updateStudyWhere (updateStudyWhere db sid (markAnalyzing db.clock)) sid
          (markCompleted r db.clock) (fun t => rfl) sid, hfind1]
    simp [markAnalyzing, hid]
  · intro hr
    subst hr
    have hfin : startAnalysis db sid none
        = (updateStudyWhere (updateStudyWhere db sid (markAnalyzing db.clock)) sid
            (markError db.clock), Except.error ServerError.externalCollaboratorFailure) := by
      unfold startAnalysis finishAnalysis
      rw [hbegin]
      dsimp only
      rw [hfind1]
      rfl
    refine ⟨by rw [hfin], markError db.clock (markAnalyzing db.clock s), ?_, rfl, rfl⟩
    rw [hfin,
        findStudy_updateStudyWhere (updateStudyWhere db sid (markAnalyzing db.clock)) sid
          (markError db.clock) (fun t => rfl) sid, hfind1]
    simp [markAnalyzing, hid]

/-- Witness for C2: on the draft study with a 2-MB JPEG, a successful
collaborator run ends completed with the returned analysisResult. -/
theorem startAnalysis_lifecycle_witness :
    (startAnalysis draftWithImageDB 1 (some ("R"))).2 = Except.ok ("R") ∧
    ∃ s2, findStudy (startAnalysis draftWithImageDB 1 (some ("R"))).1 1 = some s2 ∧
      s2.status = StudyStatus.completed ∧ s2.analysisResult = some ("R") :=
  (startAnalysis_lifecycle draftWithImageDB 1 sampleStudy (some ("R"))
      rfl rfl (by decide)).2.1 ("R") rfl

/-- C8: when the assistant-reply collaborator fails, sendChatMessage persists
the user message, appends no assistant message, and the caller receives the
partial-failure indicator; listMessages afterwards shows the previous messages
of the study plus exactly the one user message. -/
theorem sendChatMessage_collab_failure (db : DB) (sid : Nat) (s : Study) (message : String)
    (hm : strTrim message ≠ []) (h : findStudy db sid = some s) :
    (sendChatMessage db sid message none).2 = Except.ok ChatOutcome.userSavedAssistantFailed ∧
    (sendChatMessage db sid message none).1.chatMessages
      = db.chatMessages
        ++ [{ id := db.nextMessageId, studyId := sid, role := ChatRole.user,
              content := message, createdAt := db.clock }] ∧
    getChatMessages (sendChatMessage db sid message none).1 sid
      = getChatMessages db sid
        ++ [{ id := db.nextMessageId, studyId := sid, role := ChatRole.user,
              content := message, createdAt := db.clock }] := by
  have heq : sendChatMessage db sid message none
      = ({ db with
           nextMessageId := db.nextMessageId + 1,
           chatMessages :=
             db.chatMessages
               ++ [{ id := db.nextMessageId, studyId := sid, role := ChatRole.user,
                     content := message, createdAt := db.clock }] },
         Except.ok ChatOutcome.userSavedAssistantFailed) := by
    unfold sendChatMessage
    rw [if_neg hm, h]
  refine ⟨by rw [heq], by rw [heq], ?_⟩
  rw [heq]
  unfold getChatMessages
  simp [List.filter_append]

/-- Witness for C8: a failed collaborator call on the sample database leaves
exactly the user message in the chat history, with the partial-failure
indicator returned. -/
theorem sendChatMessage_collab_failure_witness :
    (sendChatMessage draftWithImageDB 1 ("question") none).2
        = Except.ok ChatOutcome.userSavedAssistantFailed ∧
    getChatMessages (sendChatMessage draftWithImageDB 1 ("question") none).1 1
      = [{ id := 1, studyId := 1, role := ChatRole.user,
           content := ("question"), createdAt := 5 }] := by
  have h := sendChatMessage_collab_failure draftWithImageDB 1 sampleStudy ("question")
    (by decide) rfl
  exact ⟨h.1, by rw [h.2.2]; rfl⟩

/-- C1: across any single lifecycle operation (and hence along any sequence of
them), the status of any study observable by primary key either stays put or
moves along one of the edges draft→analyzing, analyzing→completed,
analyzing→error or error→analyzing, the last being the sole re-entry edge; in
particular no transition leaves completed. -/
theorem status_transitions_restricted (db : DB) (op : Op) (tid : Nat) (s s' : Study)
    (h1 : findStudy db tid = some s)
    (h2 : findStudy (applyOp db op) tid = some s')
    (hne : s.status ≠ s'.status) :
    allowedEdge s.status s'.status = true := by
  cases op with
  | create u t ty =>
      simp only [applyOp] at h2
      exfalso
      apply hne
      have hget : findStudy (createStudy db u t ty).1 tid = some s := by
        unfold createStudy findStudy
        unfold findStudy at h1
        rw [List.find?_append, h1]
        rfl
      rw [hget] at h2
      injection h2 with h3
      rw [h3]
  | uploadImage sid d f m =>
      simp only [applyOp] at h2
      exfalso
      apply hne
      have hst : findStudy (uploadImage db sid d f m).1 tid = findStudy db tid := by
        unfold findStudy
        rw [uploadImage_studies]
      rw [hst, h1] at h2
      injection h2 with h3
      rw [h3]
  | sendChat sid msg c =>
      simp only [applyOp] at h2
      exfalso
      apply hne
      have hst : findStudy (sendChatMessage db sid msg c).1 tid = findStudy db tid := by
        unfold findStudy
        rw [sendChatMessage_studies]
      rw [hst, h1] at h2
      injection h2 with h3
      rw [h3]
  | tick d =>
      simp only [applyOp] at h2
      exfalso
      apply hne
      have hst : findStudy { db with clock := db.clock + d } tid = findStudy db tid := rfl
      rw [hst, h1] at h2
      injection h2 with h3
      rw [h3]
  | beginAnalysis sid =>
      simp only [applyOp] at h2
      unfold beginAnalysis at h2
      cases hf : findStudy db sid with
      | none =>
          rw [hf] at h2
          dsimp only at h2
          exfalso
          apply hne
          rw [h1] at h2
          injection h2 with h3
          rw [h3]
      | some t =>
          rw [hf] at h2
          dsimp only at h2
          by_cases hg : t.status = StudyStatus.draft ∨ t.status = StudyStatus.error
          · rw [if_pos hg] at h2
            by_cases hi : imagesOf db sid = []
            · rw [if_pos hi] at h2
              dsimp only at h2
              exfalso
              apply hne
              rw [h1] at h2
              injection h2 with h3
              rw [h3]
            · rw [if_neg hi] at h2
              dsimp only at h2
              rcases findStudy_updateStudyWhere_cases db sid tid (markAnalyzing db.clock)
                  (fun u => rfl) s s' h1 h2 with h3 | ⟨hts, h3⟩
              · exact absurd (by rw [h3]) hne
              · subst hts
                rw [hf] at h1
                injection h1 with h4
                rw [h3]
                rcases hg with hgd | hge
                · rw [h4] at hgd
                  rw [hgd]
                  rfl
                · rw [h4] at hge
                  rw [hge]
                  rfl
          · rw [if_neg hg] at h2
            dsimp only at h2
            exfalso
            apply hne
            rw [h1] at h2
            injection h2 with h3
            rw [h3]
  | finishAnalysis sid c =>
      simp only [applyOp] at h2
      unfold finishAnalysis at h2
      cases hf : findStudy db sid with
      | none =>
          rw [hf] at h2
          dsimp only at h2
          exfalso
          apply hne
          rw [h1] at h2
          injection h2 with h3
          rw [h3]
      | some t =>
          rw [hf] at h2
          dsimp only at h2
          by_cases hg : t.status = StudyStatus.analyzing
          · rw [if_pos hg] at h2
            cases c with
            | some r =>
                dsimp only at h2
                rcases findStudy_updateStudyWhere_cases db sid tid (markCompleted r db.clock)
                    (fun u => rfl) s s' h1 h2 with h3 | ⟨hts, h3⟩
                · exact absurd (by rw [h3]) hne
                · subst hts
                  rw [hf] at h1
                  injection h1 with h4
                  rw [h3]
                  rw [h4] at hg
                  rw [hg]
                  rfl
            | none =>
                dsimp only at h2
                rcases findStudy_updateStudyWhere_cases db sid tid (markError db.clock)
                    (fun u => rfl) s s' h1 h2 with h3 | ⟨hts, h3⟩
                · exact absurd (by rw [h3]) hne
                · subst hts
                  rw [hf] at h1
                  injection h1 with h4
                  rw [h3]
                  rw [h4] at hg
                  rw [hg]
                  rfl
          · rw [if_neg hg] at h2
            exfalso
            apply hne
            rw [h1] at h2
            injection h2 with h3
            rw [h3]
  | update inp =>
      simp only [applyOp] at h2
      unfold updateStudy at h2
      cases hf : findStudy db inp.id with
      | none =>
          rw [hf] at h2
          dsimp only at h2
          exfalso
          apply hne
          rw [h1] at h2
          injection h2 with h3
          rw [h3]
      | some t =>
          rw [hf] at h2
          dsimp only at h2
          rcases findStudy_updateStudyWhere_cases db inp.id tid (applyUpdate inp db.clock)
              (fun u => rfl) s s' h1 h2 with h3 | ⟨hts, h3⟩
          · exact absurd (by rw [h3]) hne
          · exfalso
            apply hne
            rw [h3]
            rfl
  | deleteStudy sid =>
      simp only [applyOp] at h2
      have h2f : (db.studies.filter (fun x => x.id != sid)).find? (fun x => x.id == tid)
          = some s' := h2
      by_cases hts : tid = sid
      · subst hts
        rw [find_filter_none] at h2f
        · cases h2f
        · intro x hx
          simp only [beq_iff_eq] at hx
          simp [hx]
      · rw [find_filter_of_imp] at h2f
        · exfalso
          apply hne
          unfold findStudy at h1
          rw [h1] at h2f
          injection h2f with h3
          rw [h3]
        · intro x hx
          simp only [beq_iff_eq] at hx
          simp [hx, hts]

/-- Witness for C1: running the first analysis phase on the draft study with
an image performs the draft→analyzing transition, which is an allowed edge. -/
theorem status_transitions_restricted_witness :
    findStudy draftWithImageDB 1 = some sampleStudy ∧
    findStudy (applyOp draftWithImageDB (Op.beginAnalysis 1)) 1
      = some (markAnalyzing 5 sampleStudy) ∧
    sampleStudy.status ≠ (markAnalyzing 5 sampleStudy).status ∧
    allowedEdge sampleStudy.status (markAnalyzing 5 sampleStudy).status = true :=
  ⟨rfl, by decide, by decide,
   status_transitions_restricted draftWithImageDB (Op.beginAnalysis 1) 1
     sampleStudy (markAnalyzing 5 sampleStudy) rfl (by decide) (by decide)⟩

/-- Pairwise relation maintained by append-only insertion into chatMessages:
nondecreasing timestamps and strictly increasing sequence numbers. -/
def msgLe (a b : ChatMessage) : Prop :=
  a.createdAt ≤ b.createdAt ∧ a.id < b.id

/-- Strict order under the key (createdAt, id), lexicographically: earlier
timestamp first, equal timestamps tie-broken by the sequence number. -/
def msgKeyLt (a b : ChatMessage) : Prop :=
  a.createdAt < b.createdAt ∨ (a.createdAt = b.createdAt ∧ a.id < b.id)

/-- Invariant of reachable databases: chat messages are stored pairwise in
msgLe order, with all ids below the auto-increment counter and all timestamps
at most the server clock. -/
def ChatInv (db : DB) : Prop :=
  db.chatMessages.Pairwise msgLe ∧
  ∀ m ∈ db.chatMessages, m.id < db.nextMessageId ∧ m.createdAt ≤ db.clock

/-- The empty database satisfies the chat invariant. -/
theorem chatInv_init : ChatInv DB.init := by
  constructor
  · exact List.Pairwise.nil
  · intro m hm
    cases hm

/-- uploadImage changes none of the chat-relevant fields. -/
theorem uploadImage_chat (db : DB) (sid : Nat) (d f m : String) :
    ((uploadImage db sid d f m).1).chatMessages = db.chatMessages ∧
    ((uploadImage db sid d f m).1).nextMessageId = db.nextMessageId ∧
    ((uploadImage db sid d f m).1).clock = db.clock := by
  unfold uploadImage
  split
  · exact ⟨rfl, rfl, rfl⟩
  · split <;> exact ⟨rfl, rfl, rfl⟩

/-- beginAnalysis changes none of the chat-relevant fields. -/
theorem beginAnalysis_chat (db : DB) (sid : Nat) :
    ((beginAnalysis db sid).1).chatMessages = db.chatMessages ∧
    ((beginAnalysis db sid).1).nextMessageId = db.nextMessageId ∧
    ((beginAnalysis db sid).1).clock = db.clock := by
  unfold beginAnalysis
  split
  · exact ⟨rfl, rfl, rfl⟩
  · split
    · split <;> exact ⟨rfl, rfl, rfl⟩
    · exact ⟨rfl, rfl, rfl⟩

/-- finishAnalysis changes none of the chat-relevant fields. -/
theorem finishAnalysis_chat (db : DB) (sid : Nat) (c : Option String) :
    (finishAnalysis db sid c).chatMessages = db.chatMessages ∧
    (finishAnalysis db sid c).nextMessageId = db.nextMessageId ∧
    (finishAnalysis db sid c).clock = db.clock := by
  unfold finishAnalysis
  split
  · exact ⟨rfl, rfl, rfl⟩
  · split
    · split <;> exact ⟨rfl, rfl, rfl⟩
    · exact ⟨rfl, rfl, rfl⟩

/-- updateStudy changes none of the chat-relevant fields. -/
theorem updateStudy_chat (db : DB) (inp : UpdateInput) :
    ((updateStudy db inp).1).chatMessages = db.chatMessages ∧
    ((updateStudy db inp).1).nextMessageId = db.nextMessageId ∧
    ((updateStudy db inp).1).clock = db.clock := by
  unfold updateStudy
  split <;> exact ⟨rfl, rfl, rfl⟩

/-- Appending one message stamped with the current clock and the next sequence
number preserves the chat invariant. -/
theorem chatInv_append (db : DB) (sid : Nat) (content : String) (role : ChatRole)
    (h : ChatInv db) :
    ChatInv { db with
              nextMessageId := db.nextMessageId + 1,
              chatMessages :=
                db.chatMessages
                  ++ [{ id := db.nextMessageId, studyId := sid, role := role,
                        content := content, createdAt := db.clock }] } := by
  obtain ⟨hp, hb⟩ := h
  constructor
  · rw [List.pairwise_append]
    refine ⟨hp, List.pairwise_singleton _ _, ?_⟩
    intro a ha b hbm
    simp only [List.mem_singleton] at hbm
    subst hbm
    obtain ⟨h1, h2⟩ := hb a ha
    exact ⟨h2, h1⟩
  · intro m hm
    rw [List.mem_append] at hm
    rcases hm with hm | hm
    · obtain ⟨h1, h2⟩ := hb m hm
      exact ⟨Nat.lt_trans h1 (Nat.lt_succ_self _), h2⟩
    · simp only [List.mem_singleton] at hm
      subst hm
      exact ⟨Nat.lt_succ_self _, le_refl _⟩

/-- Every operation preserves the chat invariant. -/
theorem chatInv_applyOp (db : DB) (op : Op) (h : ChatInv db) : ChatInv (applyOp db op) := by
  obtain ⟨hp, hb⟩ := h
  cases op with
  | create u t ty => exact ⟨hp, hb⟩
  | uploadImage sid d f m =>
      obtain ⟨e1, e2, e3⟩ := uploadImage_chat db sid d f m
      unfold ChatInv
      simp only [applyOp]
      rw [e1, e2, e3]
      exact ⟨hp, hb⟩
  | beginAnalysis sid =>
      obtain ⟨e1, e2, e3⟩ := beginAnalysis_chat db sid
      unfold ChatInv
      simp only [applyOp]
      rw [e1, e2, e3]
      exact ⟨hp, hb⟩
  | finishAnalysis sid c =>
      obtain ⟨e1, e2, e3⟩ := finishAnalysis_chat db sid c
      unfold ChatInv
      simp only [applyOp]
      rw [e1, e2, e3]
      exact ⟨hp, hb⟩
  | update inp =>
      obtain ⟨e1, e2, e3⟩ := updateStudy_chat db inp
      unfold ChatInv
      simp only [applyOp]
      rw [e1, e2, e3]
      exact ⟨hp, hb⟩
  | tick d =>
      refine ⟨hp, ?_⟩
      intro m hm
      obtain ⟨h1, h2⟩ := hb m hm
      exact ⟨h1, Nat.le_trans h2 (Nat.le_add_right _ _)⟩
  | deleteStudy sid =>
      constructor
      · exact hp.filter _
      · intro m hm
        exact hb m (List.mem_of_mem_filter hm)
  | sendChat sid msg c =>
      cases c with
      | none =>
          simp only [applyOp]
          unfold sendChatMessage
          split
          · exact ⟨hp, hb⟩
          · split
            · exact ⟨hp, hb⟩
            · dsimp only
              exact chatInv_append db sid msg ChatRole.user ⟨hp, hb⟩
      | some reply =>
          simp only [applyOp]
          unfold sendChatMessage
          split
          · exact ⟨hp, hb⟩
          · split
            · exact ⟨hp, hb⟩
            · dsimp only
              exact chatInv_append _ sid reply ChatRole.assistant
                (chatInv_append db sid msg ChatRole.user ⟨hp, hb⟩)

/-- The chat invariant holds along any sequence of operations. -/
theorem chatInv_applyOps (db : DB) (ops : List Op) (h : ChatInv db) :
    ChatInv (applyOps db ops) := by
  induction ops generalizing db with
  | nil => exact h
  | cons op ops ih => exact ih (applyOp db op) (chatInv_applyOp db op h)

/-- C7: after any sequence of operations from the empty database — in
particular any interleaving of appendMessage calls on a study — listMessages
returns all that study's messages in strictly increasing (createdAt, id)
lexicographic order: a total, stable order in which equal timestamps are
tie-broken by the monotonic sequence number. -/
theorem listMessages_strictly_ordered (ops : List Op) (sid : Nat) :
    (getChatMessages (applyOps DB.init ops) sid).Pairwise msgKeyLt := by
  obtain ⟨hp, hbound⟩ := chatInv_applyOps DB.init ops chatInv_init
  unfold getChatMessages
  refine List.Pairwise.imp ?_ (hp.filter _)
  intro a b hab
  rcases Nat.lt_or_ge a.createdAt b.createdAt with h1 | h1
  · exact Or.inl h1
  · exact Or.inr ⟨Nat.le_antisymm hab.1 h1, hab.2⟩
